import Mathlib

/-!
Verification of the environment-variable configuration core in
`graph/src/env/mappings.rs` (graph-node).

The development embeds, shallowly:
  * the raw configuration struct `InnerMappingHandlers` (one field per
    environment variable, loaded with per-field defaults),
  * the derived configuration struct `EnvVarsMapping` and the pure
    transform `From<InnerMappingHandlers> for EnvVarsMapping`,
  * the redacting `Debug` implementation on `EnvVarsMapping`,
  * the scalar parsers used by the loader (`usize`/`u64` integers,
    `NoUnderscores`, `WithDefaultUsize`, `EnvVarBoolean`, semver), and
  * the environment loader generated by the `Envconfig` derive.

Machine integers (`usize`, `u64` on the 64-bit targets graph-node builds
for) are embedded as `Nat`; arithmetic performed by the code on them is
taken modulo `2 ^ 64`, the wrapping (release-mode) semantics of Rust.
-/

/-- Modulus of `usize` and `u64` on a 64-bit target. -/
def USIZE_MOD : Nat := 2 ^ 64

/-- Modulus of `u32`. -/
def U32_MOD : Nat := 2 ^ 32

/-- A semantic version `major.minor.patch` (the fields of `semver::Version`
used by this configuration core). -/
structure Version where
  major : Nat
  minor : Nat
  patch : Nat
deriving DecidableEq, Repr

/-- `std::time::Duration`: whole seconds (`u64`) plus a nanosecond part
(`u32`, always `< 10^9`). -/
structure Duration where
  secs : Nat
  nanos : Nat
deriving DecidableEq, Repr

/-- `Duration::from_secs`: a whole number of seconds, no nanosecond part. -/
def Duration.from_secs (v : Nat) : Duration := ⟨v, 0⟩

/-- The raw configuration struct `InnerMappingHandlers`
(`graph/src/env/mappings.rs`): one field per environment variable, in the
unit the variable is denominated in.  The newtype wrappers
(`WithDefaultUsize`, `NoUnderscores`, `EnvVarBoolean`) are already
unwrapped to their payload here; the unwrapping (`.0`) performed by the
derive transform is therefore the identity. -/
structure InnerMappingHandlers where
  entity_cache_size_in_kb : Nat
  max_api_version : Version
  mapping_handler_timeout_in_secs : Option Nat
  runtime_max_stack_size : Nat
  query_cache_blocks : Nat
  query_cache_max_mem_in_mb : Nat
  query_cache_stale_period : Nat
  max_ipfs_cache_file_size : Nat
  max_ipfs_cache_size : Nat
  ipfs_timeout_in_secs : Nat
  max_ipfs_map_file_size : Nat
  max_ipfs_file_bytes : Option Nat
  allow_non_deterministic_ipfs : Bool
deriving DecidableEq, Repr

/-- The derived configuration struct `EnvVarsMapping`
(`graph/src/env/mappings.rs`): the runtime-facing object, fields in
natural runtime units. -/
structure EnvVarsMapping where
  entity_cache_size : Nat
  max_api_version : Version
  timeout : Option Duration
  max_stack_size : Nat
  query_cache_blocks : Nat
  query_cache_max_mem : Nat
  query_cache_stale_period : Nat
  max_ipfs_cache_file_size : Nat
  max_ipfs_cache_size : Nat
  ipfs_timeout : Duration
  max_ipfs_map_file_size : Nat
  max_ipfs_file_bytes : Option Nat
  allow_non_deterministic_ipfs : Bool
deriving DecidableEq, Repr

/-- The derive transform `From<InnerMappingHandlers> for EnvVarsMapping`
(`graph/src/env/mappings.rs`).  The two `usize` multiplications
(`* 1000` and `* 1000 * 1000`) wrap modulo `2 ^ 64` exactly as Rust
release-mode `usize` arithmetic does. -/
def EnvVarsMapping.from (x : InnerMappingHandlers) : EnvVarsMapping where
  entity_cache_size := x.entity_cache_size_in_kb * 1000 % USIZE_MOD
  max_api_version := x.max_api_version
  timeout := x.mapping_handler_timeout_in_secs.map Duration.from_secs
  max_stack_size := x.runtime_max_stack_size
  query_cache_blocks := x.query_cache_blocks
  query_cache_max_mem := x.query_cache_max_mem_in_mb * 1000 * 1000 % USIZE_MOD
  query_cache_stale_period := x.query_cache_stale_period
  max_ipfs_cache_file_size := x.max_ipfs_cache_file_size
  max_ipfs_cache_size := x.max_ipfs_cache_size
  ipfs_timeout := Duration.from_secs x.ipfs_timeout_in_secs
  max_ipfs_map_file_size := x.max_ipfs_map_file_size
  max_ipfs_file_bytes := x.max_ipfs_file_bytes
  allow_non_deterministic_ipfs := x.allow_non_deterministic_ipfs

/-- The `fmt::Debug` implementation for `EnvVarsMapping`
(`graph/src/env/mappings.rs`): it writes the fixed string `"env vars"`
and never inspects any field. -/
def EnvVarsMapping.debugFmt (_ : EnvVarsMapping) : String := "env vars"

/-- Well-formedness of a raw instance as Rust machine values: every
integer field fits its type (`usize`/`u64` are 64 bits wide on the
targets graph-node builds for). -/
def InnerMappingHandlers.wf (x : InnerMappingHandlers) : Bool :=
  decide (x.entity_cache_size_in_kb < USIZE_MOD) &&
  (x.mapping_handler_timeout_in_secs.all fun v => decide (v < USIZE_MOD)) &&
  decide (x.runtime_max_stack_size < USIZE_MOD) &&
  decide (x.query_cache_blocks < USIZE_MOD) &&
  decide (x.query_cache_max_mem_in_mb < USIZE_MOD) &&
  decide (x.query_cache_stale_period < USIZE_MOD) &&
  decide (x.max_ipfs_cache_file_size < USIZE_MOD) &&
  decide (x.max_ipfs_cache_size < USIZE_MOD) &&
  decide (x.ipfs_timeout_in_secs < USIZE_MOD) &&
  decide (x.max_ipfs_map_file_size < USIZE_MOD) &&
  (x.max_ipfs_file_bytes.all fun v => decide (v < USIZE_MOD))

/-- The typed failures of the loader.  Modelled from the spec: the error
taxonomy (`MissingVariable(name)`, `InvalidFormat(name, raw_text)`) lives
in the error type of the envconfig loader, which is outside
`graph/src/env/mappings.rs`. -/
inductive ParseError where
  | missingVariable (name : String) : ParseError
  | invalidFormat (name : String) (raw : String) : ParseError
deriving DecidableEq, Repr

deriving instance DecidableEq for Except

/-- Numeric value of a decimal digit character, `none` on any other
character. -/
def digitVal (c : Char) : Option Nat :=
  if '0' ≤ c ∧ c ≤ '9' then some (c.toNat - '0'.toNat) else none

/-- Accumulate a decimal literal left to right; `none` as soon as a
non-digit appears. -/
def parseNatCore : List Char → Nat → Option Nat
  | [], acc => some acc
  | c :: cs, acc =>
    match digitVal c with
    | some d => parseNatCore cs (acc * 10 + d)
    | none => none

/-- A non-empty all-digit decimal literal, as a natural number. -/
def parseNatText (cs : List Char) : Option Nat :=
  match cs with
  | [] => none
  | _ => parseNatCore cs 0

/-- Modelled from the spec: the plain unsigned-integer parser
(`usize::from_str` / `u64::from_str` as used by the loader, outside
`graph/src/env/mappings.rs`): fails with `InvalidFormat` if the text is
not a valid non-negative integer literal in the target type's range
(64 bits on graph-node's targets). -/
def parseUsize (name raw : String) : Except ParseError Nat :=
  match parseNatText raw.data with
  | some v => if v < USIZE_MOD then Except.ok v else Except.error (ParseError.invalidFormat name raw)
  | none => Except.error (ParseError.invalidFormat name raw)

/-- Modelled from the spec: the separator-restricted integer parser
(`NoUnderscores<usize>`, outside `graph/src/env/mappings.rs`): identical
to plain integer parsing, but fails with `InvalidFormat` if the literal
contains the underscore grouping separator. -/
def parseNoUnderscores (name raw : String) : Except ParseError Nat :=
  if raw.data.contains '_' then Except.error (ParseError.invalidFormat name raw)
  else parseUsize name raw

/-- Modelled from the spec: the with-default integer wrapper
(`WithDefaultUsize<T, D>`, outside `graph/src/env/mappings.rs`):
if the raw text is the empty string, yields the compile-time constant `d`
directly without invoking the inner parser; otherwise delegates to the
inner parser and propagates its outcome. -/
def parseWithDefault (inner : String → String → Except ParseError Nat) (d : Nat)
    (name raw : String) : Except ParseError Nat :=
  if raw.data = [] then Except.ok d else inner name raw

/-- ASCII lower-casing of one character. -/
def lowerChar (c : Char) : Char :=
  if 'A' ≤ c ∧ c ≤ 'Z' then Char.ofNat (c.toNat + 32) else c

/-- Modelled from the spec: the boolean parser (`EnvVarBoolean`, outside
`graph/src/env/mappings.rs`): accepts only the closed, case-insensitive
vocabulary `true`/`1` for true and `false`/`0` for false; any other text
fails with `InvalidFormat`. -/
def parseBool (name raw : String) : Except ParseError Bool :=
  if raw.data.map lowerChar = "true".data ∨ raw.data.map lowerChar = "1".data then Except.ok true
  else if raw.data.map lowerChar = "false".data ∨ raw.data.map lowerChar = "0".data then Except.ok false
  else Except.error (ParseError.invalidFormat name raw)

/-- Split a character list at every dot. -/
def splitDots : List Char → List (List Char)
  | [] => [[]]
  | c :: cs =>
    match splitDots cs with
    | [] => [[c]]
    | g :: gs => if c = '.' then [] :: g :: gs else (c :: g) :: gs

/-- Modelled from the spec: the version parser (`semver::Version` as used
by the loader, outside `graph/src/env/mappings.rs`): accepts a
three-component dotted numeric literal `major.minor.patch`; fails with
`InvalidFormat` on malformed input. -/
def parseVersion (name raw : String) : Except ParseError Version :=
  match splitDots raw.data with
  | [a, b, c] =>
    match parseNatText a, parseNatText b, parseNatText c with
    | some x, some y, some z => Except.ok ⟨x, y, z⟩
    | _, _, _ => Except.error (ParseError.invalidFormat name raw)
  | _ => Except.error (ParseError.invalidFormat name raw)

/-- An environment snapshot: an immutable mapping from variable name to
optional textual value. -/
def Env : Type := String → Option String

/-- Modelled from the spec: loading one field with a declared variable
name and optional literal default (the per-field behaviour of the
`Envconfig` derive, outside `graph/src/env/mappings.rs`): a present
variable is parsed; an absent one falls back to parsing the declared
default literal, or fails with `MissingVariable` if no default is
declared. -/
def loadField (env : Env) (name : String) (dflt : Option String)
    (p : String → String → Except ParseError α) : Except ParseError α :=
  match env name with
  | some raw => p name raw
  | none =>
    match dflt with
    | some d => p name d
    | none => Except.error (ParseError.missingVariable name)

/-- Modelled from the spec: loading one optional field (an `Option<T>`
field of the `Envconfig` derive, outside `graph/src/env/mappings.rs`):
an absent variable yields the empty sentinel `none`, not an error; a
present one delegates to the inner parser. -/
def loadOptField (env : Env) (name : String)
    (p : String → String → Except ParseError α) : Except ParseError (Option α) :=
  match env name with
  | some raw => (p name raw).map some
  | none => Except.ok none

/-- Modelled from the spec: the loader of `InnerMappingHandlers`
(generated by the `Envconfig` derive, outside `graph/src/env/mappings.rs`),
with the variable names, defaults and field parsers taken from the
`#[envconfig(...)]` attributes in `graph/src/env/mappings.rs`. -/
def InnerMappingHandlers.init_from_env (env : Env) : Except ParseError InnerMappingHandlers :=
  Except.bind (loadField env "GRAPH_ENTITY_CACHE_SIZE" (some "10000") parseUsize) fun a1 =>
  Except.bind (loadField env "GRAPH_MAX_API_VERSION" (some "0.0.7") parseVersion) fun a2 =>
  Except.bind (loadOptField env "GRAPH_MAPPING_HANDLER_TIMEOUT" parseUsize) fun a3 =>
  Except.bind (loadField env "GRAPH_RUNTIME_MAX_STACK_SIZE" (some "")
      (parseWithDefault parseNoUnderscores (512 * 1024))) fun a4 =>
  Except.bind (loadField env "GRAPH_QUERY_CACHE_BLOCKS" (some "2") parseUsize) fun a5 =>
  Except.bind (loadField env "GRAPH_QUERY_CACHE_MAX_MEM" (some "1000") parseNoUnderscores) fun a6 =>
  Except.bind (loadField env "GRAPH_QUERY_CACHE_STALE_PERIOD" (some "100") parseUsize) fun a7 =>
  Except.bind (loadField env "GRAPH_MAX_IPFS_CACHE_FILE_SIZE" (some "")
      (parseWithDefault parseUsize (1024 * 1024))) fun a8 =>
  Except.bind (loadField env "GRAPH_MAX_IPFS_CACHE_SIZE" (some "50") parseUsize) fun a9 =>
  Except.bind (loadField env "GRAPH_IPFS_TIMEOUT" (some "30") parseUsize) fun a10 =>
  Except.bind (loadField env "GRAPH_MAX_IPFS_MAP_FILE_SIZE" (some "")
      (parseWithDefault parseUsize (256 * 1024 * 1024))) fun a11 =>
  Except.bind (loadOptField env "GRAPH_MAX_IPFS_FILE_BYTES" parseUsize) fun a12 =>
  Except.bind (loadField env "GRAPH_ALLOW_NON_DETERMINISTIC_IPFS" (some "false") parseBool) fun a13 =>
  Except.ok
    { entity_cache_size_in_kb := a1
      max_api_version := a2
      mapping_handler_timeout_in_secs := a3
      runtime_max_stack_size := a4
      query_cache_blocks := a5
      query_cache_max_mem_in_mb := a6
      query_cache_stale_period := a7
      max_ipfs_cache_file_size := a8
      max_ipfs_cache_size := a9
      ipfs_timeout_in_secs := a10
      max_ipfs_map_file_size := a11
      max_ipfs_file_bytes := a12
      allow_non_deterministic_ipfs := a13 }

/-- The completely empty environment snapshot. -/
def emptyEnv : Env := fun _ => none

/-- The raw struct obtained from the empty environment: every declared
default applied. -/
def defaultRaw : InnerMappingHandlers where
  entity_cache_size_in_kb := 10000
  max_api_version := ⟨0, 0, 7⟩
  mapping_handler_timeout_in_secs := none
  runtime_max_stack_size := 512 * 1024
  query_cache_blocks := 2
  query_cache_max_mem_in_mb := 1000
  query_cache_stale_period := 100
  max_ipfs_cache_file_size := 1024 * 1024
  max_ipfs_cache_size := 50
  ipfs_timeout_in_secs := 30
  max_ipfs_map_file_size := 256 * 1024 * 1024
  max_ipfs_file_bytes := none
  allow_non_deterministic_ipfs := false

/-- Well-formedness of a derived instance as Rust machine values. -/
def EnvVarsMapping.wf (y : EnvVarsMapping) : Bool :=
  decide (y.entity_cache_size < USIZE_MOD) &&
  (y.timeout.all fun d => decide (d.secs < USIZE_MOD) && decide (d.nanos < U32_MOD)) &&
  decide (y.max_stack_size < USIZE_MOD) &&
  decide (y.query_cache_blocks < USIZE_MOD) &&
  decide (y.query_cache_max_mem < USIZE_MOD) &&
  decide (y.query_cache_stale_period < USIZE_MOD) &&
  decide (y.max_ipfs_cache_file_size < USIZE_MOD) &&
  decide (y.max_ipfs_cache_size < USIZE_MOD) &&
  decide (y.ipfs_timeout.secs < USIZE_MOD) &&
  decide (y.ipfs_timeout.nanos < U32_MOD) &&
  decide (y.max_ipfs_map_file_size < USIZE_MOD) &&
  (y.max_ipfs_file_bytes.all fun v => decide (v < USIZE_MOD))

/-! ## Helper lemmas -/

theorem ok_inj {ε α : Type} {v w : α} (h : (Except.ok v : Except ε α) = Except.ok w) : v = w := by
  injection h

theorem bind_eq_ok {ε α β : Type} {e : Except ε α} {f : α → Except ε β} {b : β}
    (h : Except.bind e f = Except.ok b) : ∃ a, e = Except.ok a ∧ f a = Except.ok b := by
  cases e with
  | error err => exact absurd h (by simp [Except.bind])
  | ok a => exact ⟨a, rfl, h⟩

theorem loadField_absent {α : Type} {env : Env} {name d : String}
    {p : String → String → Except ParseError α}
    (ha : env name = none) : loadField env name (some d) p = p name d := by
  unfold loadField
  rw [ha]

theorem loadOptField_absent {α : Type} {env : Env} {name : String}
    {p : String → String → Except ParseError α}
    (ha : env name = none) : loadOptField env name p = Except.ok none := by
  unfold loadOptField
  rw [ha]

theorem loadOptField_present {α : Type} {env : Env} {name raw : String}
    {p : String → String → Except ParseError α}
    (ha : env name = some raw) : loadOptField env name p = (p name raw).map some := by
  unfold loadOptField
  rw [ha]

theorem init_ok_fields {env : Env} {r : InnerMappingHandlers}
    (h : InnerMappingHandlers.init_from_env env = Except.ok r) :
    loadField env "GRAPH_ENTITY_CACHE_SIZE" (some "10000") parseUsize = Except.ok r.entity_cache_size_in_kb ∧
    loadField env "GRAPH_MAX_API_VERSION" (some "0.0.7") parseVersion = Except.ok r.max_api_version ∧
    loadOptField env "GRAPH_MAPPING_HANDLER_TIMEOUT" parseUsize = Except.ok r.mapping_handler_timeout_in_secs ∧
    loadField env "GRAPH_RUNTIME_MAX_STACK_SIZE" (some "") (parseWithDefault parseNoUnderscores (512 * 1024)) = Except.ok r.runtime_max_stack_size ∧
    loadField env "GRAPH_QUERY_CACHE_BLOCKS" (some "2") parseUsize = Except.ok r.query_cache_blocks ∧
    loadField env "GRAPH_QUERY_CACHE_MAX_MEM" (some "1000") parseNoUnderscores = Except.ok r.query_cache_max_mem_in_mb ∧
    loadField env "GRAPH_QUERY_CACHE_STALE_PERIOD" (some "100") parseUsize = Except.ok r.query_cache_stale_period ∧
    loadField env "GRAPH_MAX_IPFS_CACHE_FILE_SIZE" (some "") (parseWithDefault parseUsize (1024 * 1024)) = Except.ok r.max_ipfs_cache_file_size ∧
    loadField env "GRAPH_MAX_IPFS_CACHE_SIZE" (some "50") parseUsize = Except.ok r.max_ipfs_cache_size ∧
    loadField env "GRAPH_IPFS_TIMEOUT" (some "30") parseUsize = Except.ok r.ipfs_timeout_in_secs ∧
    loadField env "GRAPH_MAX_IPFS_MAP_FILE_SIZE" (some "") (parseWithDefault parseUsize (256 * 1024 * 1024)) = Except.ok r.max_ipfs_map_file_size ∧
    loadOptField env "GRAPH_MAX_IPFS_FILE_BYTES" parseUsize = Except.ok r.max_ipfs_file_bytes ∧
    loadField env "GRAPH_ALLOW_NON_DETERMINISTIC_IPFS" (some "false") parseBool = Except.ok r.allow_non_deterministic_ipfs := by
  unfold InnerMappingHandlers.init_from_env at h
  obtain ⟨a1, h1, h⟩ := bind_eq_ok h
  obtain ⟨a2, h2, h⟩ := bind_eq_ok h
  obtain ⟨a3, h3, h⟩ := bind_eq_ok h
  obtain ⟨a4, h4, h⟩ := bind_eq_ok h
  obtain ⟨a5, h5, h⟩ := bind_eq_ok h
  obtain ⟨a6, h6, h⟩ := bind_eq_ok h
  obtain ⟨a7, h7, h⟩ := bind_eq_ok h
  obtain ⟨a8, h8, h⟩ := bind_eq_ok h
  obtain ⟨a9, h9, h⟩ := bind_eq_ok h
  obtain ⟨a10, h10, h⟩ := bind_eq_ok h
  obtain ⟨a11, h11, h⟩ := bind_eq_ok h
  obtain ⟨a12, h12, h⟩ := bind_eq_ok h
  obtain ⟨a13, h13, h⟩ := bind_eq_ok h
  injection h with h
  subst h
  exact ⟨h1, h2, h3, h4, h5, h6, h7, h8, h9, h10, h11, h12, h13⟩

/-- Outcome shape: the computation either succeeded or failed with an
`invalidFormat` error (never a `missingVariable` one). -/
def okOrInvalid {α : Type} (e : Except ParseError α) : Prop :=
  (∃ a, e = Except.ok a) ∨ (∃ name raw, e = Except.error (ParseError.invalidFormat name raw))

theorem parseUsize_shape (name raw : String) : okOrInvalid (parseUsize name raw) := by
  unfold okOrInvalid parseUsize
  split
  · split
    · exact Or.inl ⟨_, rfl⟩
    · exact Or.inr ⟨name, raw, rfl⟩
  · exact Or.inr ⟨name, raw, rfl⟩

theorem parseNoUnderscores_shape (name raw : String) : okOrInvalid (parseNoUnderscores name raw) := by
  unfold parseNoUnderscores
  split
  · exact Or.inr ⟨name, raw, rfl⟩
  · exact parseUsize_shape name raw

theorem parseWithDefault_shape {inner : String → String → Except ParseError Nat} (d : Nat)
    (name : String) (hinner : ∀ s, okOrInvalid (inner name s)) (raw : String) :
    okOrInvalid (parseWithDefault inner d name raw) := by
  unfold parseWithDefault
  split
  · exact Or.inl ⟨d, rfl⟩
  · exact hinner raw

theorem parseBool_shape (name raw : String) : okOrInvalid (parseBool name raw) := by
  unfold okOrInvalid parseBool
  split
  · exact Or.inl ⟨_, rfl⟩
  · split
    · exact Or.inl ⟨_, rfl⟩
    · exact Or.inr ⟨name, raw, rfl⟩

theorem parseVersion_shape (name raw : String) : okOrInvalid (parseVersion name raw) := by
  unfold okOrInvalid parseVersion
  split
  · split
    · exact Or.inl ⟨_, rfl⟩
    · exact Or.inr ⟨name, raw, rfl⟩
  · exact Or.inr ⟨name, raw, rfl⟩

theorem loadField_shape {α : Type} (env : Env) (name d : String)
    {p : String → String → Except ParseError α}
    (hp : ∀ s, okOrInvalid (p name s)) : okOrInvalid (loadField env name (some d) p) := by
  unfold loadField
  split
  · exact hp _
  · exact hp d

theorem loadOptField_shape {α : Type} (env : Env) (name : String)
    {p : String → String → Except ParseError α}
    (hp : ∀ s, okOrInvalid (p name s)) : okOrInvalid (loadOptField env name p) := by
  unfold loadOptField
  split
  · rcases hp _ with ⟨a, h⟩ | ⟨n, s, h⟩
    · exact Or.inl ⟨some a, by rw [h]; rfl⟩
    · exact Or.inr ⟨n, s, by rw [h]; rfl⟩
  · exact Or.inl ⟨none, rfl⟩

theorem bind_shape {α β : Type} {e : Except ParseError α} {f : α → Except ParseError β}
    (he : okOrInvalid e) (hf : ∀ a, okOrInvalid (f a)) : okOrInvalid (Except.bind e f) := by
  rcases he with ⟨a, rfl⟩ | ⟨n, s, rfl⟩
  · exact hf a
  · exact Or.inr ⟨n, s, rfl⟩

theorem init_shape (env : Env) : okOrInvalid (InnerMappingHandlers.init_from_env env) := by
  unfold InnerMappingHandlers.init_from_env
  refine bind_shape (loadField_shape env _ _ fun s => parseUsize_shape _ s) fun a1 => ?_
  refine bind_shape (loadField_shape env _ _ fun s => parseVersion_shape _ s) fun a2 => ?_
  refine bind_shape (loadOptField_shape env _ fun s => parseUsize_shape _ s) fun a3 => ?_
  refine bind_shape (loadField_shape env _ _
    (parseWithDefault_shape _ _ fun s => parseNoUnderscores_shape _ s)) fun a4 => ?_
  refine bind_shape (loadField_shape env _ _ fun s => parseUsize_shape _ s) fun a5 => ?_
  refine bind_shape (loadField_shape env _ _ fun s => parseNoUnderscores_shape _ s) fun a6 => ?_
  refine bind_shape (loadField_shape env _ _ fun s => parseUsize_shape _ s) fun a7 => ?_
  refine bind_shape (loadField_shape env _ _
    (parseWithDefault_shape _ _ fun s => parseUsize_shape _ s)) fun a8 => ?_
  refine bind_shape (loadField_shape env _ _ fun s => parseUsize_shape _ s) fun a9 => ?_
  refine bind_shape (loadField_shape env _ _ fun s => parseUsize_shape _ s) fun a10 => ?_
  refine bind_shape (loadField_shape env _ _
    (parseWithDefault_shape _ _ fun s => parseUsize_shape _ s)) fun a11 => ?_
  refine bind_shape (loadOptField_shape env _ fun s => parseUsize_shape _ s) fun a12 => ?_
  refine bind_shape (loadField_shape env _ _ fun s => parseBool_shape _ s) fun a13 => ?_
  exact Or.inl ⟨_, rfl⟩

/-! ## Concrete instances used by witnesses and counterexamples -/

/-- A raw instance whose entity-cache-size field makes `* 1000` overflow
`usize`. -/
def rawBig : InnerMappingHandlers :=
  { defaultRaw with entity_cache_size_in_kb := 9223372036854775808 }

/-- The raw instance of the spec's worked example: entity cache size
variable set to `"20000"`. -/
def raw20000 : InnerMappingHandlers :=
  { defaultRaw with entity_cache_size_in_kb := 20000 }

/-- A snapshot setting only the query-cache-max-mem variable, to `"5_0"`. -/
def envUnderscore : Env :=
  fun n => if n = "GRAPH_QUERY_CACHE_MAX_MEM" then some "5_0" else none

/-- A snapshot setting only the mapping-handler-timeout variable, to `"5"`. -/
def envTimeout5 : Env :=
  fun n => if n = "GRAPH_MAPPING_HANDLER_TIMEOUT" then some "5" else none

/-- The raw instance loaded from `envTimeout5`. -/
def rawTimeout5 : InnerMappingHandlers :=
  { defaultRaw with mapping_handler_timeout_in_secs := some 5 }

/-- A snapshot setting only the mapping-handler-timeout variable, to a
malformed value. -/
def envTimeoutBad : Env :=
  fun n => if n = "GRAPH_MAPPING_HANDLER_TIMEOUT" then some "zz" else none

/-! ## Claims -/

/-- C1 (counterexample): the unit conversions of the derive transform are
not exact for every raw configuration: at a raw entity-cache-size of
`2^63` kilobytes the `usize` multiplication `* 1000` wraps modulo `2^64`,
so the derived byte count differs from `v * 1000`. -/
theorem unit_conversions_exact_cex :
    ¬ ((EnvVarsMapping.from rawBig).entity_cache_size =
        rawBig.entity_cache_size_in_kb * 1000) := by
  decide

/-- C1 (amended): the derive transform performs exact unit conversions
whenever the products fit in `usize`: under `v * 1000 < 2^64` the raw KB
value `v` derives to exactly `v * 1000` bytes, under
`v * 1000 * 1000 < 2^64` the raw MB value derives to exactly
`v * 1000000` bytes, and a raw seconds value always derives to a Duration
of exactly that many seconds. -/
theorem unit_conversions_exact (x : InnerMappingHandlers)
    (h1 : x.entity_cache_size_in_kb * 1000 < USIZE_MOD)
    (h2 : x.query_cache_max_mem_in_mb * 1000 * 1000 < USIZE_MOD) :
    (EnvVarsMapping.from x).entity_cache_size = x.entity_cache_size_in_kb * 1000 ∧
    (EnvVarsMapping.from x).query_cache_max_mem = x.query_cache_max_mem_in_mb * 1000000 ∧
    (EnvVarsMapping.from x).ipfs_timeout = Duration.from_secs x.ipfs_timeout_in_secs ∧
    (EnvVarsMapping.from x).ipfs_timeout.secs = x.ipfs_timeout_in_secs := by
  refine ⟨Nat.mod_eq_of_lt h1, ?_, rfl, rfl⟩
  show x.query_cache_max_mem_in_mb * 1000 * 1000 % USIZE_MOD = _
  rw [Nat.mod_eq_of_lt h2, Nat.mul_assoc]

/-- C1 (witness): the spec's worked example, an entity cache size of
20000 KB derives to 20,000,000 bytes. -/
theorem unit_conversions_exact_witness :
    (EnvVarsMapping.from raw20000).entity_cache_size = 20000000 :=
  (unit_conversions_exact raw20000 (by decide) (by decide)).1.trans (by decide)

/-- C3: the diagnostic representation of any two derived configuration
structs is the same fixed placeholder string; no field value influences
it. -/
theorem debug_repr_constant (a b : EnvVarsMapping) :
    a.debugFmt = b.debugFmt ∧ a.debugFmt = "env vars" :=
  ⟨rfl, rfl⟩

/-- C4: the with-default integer wrapper, on the empty string, yields
exactly its compile-time default constant (`512*1024`, `1024*1024`,
`256*1024*1024` for the three fields that use it), whatever the inner
parser would do. -/
theorem with_default_empty_yields_constant
    (inner : String → String → Except ParseError Nat) (name : String) :
    parseWithDefault inner (512 * 1024) name "" = Except.ok (512 * 1024) ∧
    parseWithDefault inner (1024 * 1024) name "" = Except.ok (1024 * 1024) ∧
    parseWithDefault inner (256 * 1024 * 1024) name "" = Except.ok (256 * 1024 * 1024) := by
  refine ⟨?_, ?_, ?_⟩ <;> · unfold parseWithDefault; exact if_pos rfl

/-- C5: any literal containing the underscore separator fails the
separator-restricted integer parser with `InvalidFormat`, and with the
query-cache-max-mem variable set to `"5_0"` the whole load fails with
that error. -/
theorem underscore_rejected :
    (∀ name raw : String, raw.data.contains '_' = true →
      parseNoUnderscores name raw = Except.error (ParseError.invalidFormat name raw)) ∧
    InnerMappingHandlers.init_from_env envUnderscore =
      Except.error (ParseError.invalidFormat "GRAPH_QUERY_CACHE_MAX_MEM" "5_0") := by
  constructor
  · intro name raw hc
    unfold parseNoUnderscores
    rw [hc]
    simp
  · decide

/-- C5 (witness): `"5_0"` is rejected even though `50` would be a valid
integer. -/
theorem underscore_rejected_witness :
    parseNoUnderscores "GRAPH_QUERY_CACHE_MAX_MEM" "5_0" =
      Except.error (ParseError.invalidFormat "GRAPH_QUERY_CACHE_MAX_MEM" "5_0") :=
  underscore_rejected.1 "GRAPH_QUERY_CACHE_MAX_MEM" "5_0" (by decide)

/-- C8: the derive transform passes the non-converted fields through
unchanged. -/
theorem derive_passthrough (x : InnerMappingHandlers) :
    (EnvVarsMapping.from x).max_api_version = x.max_api_version ∧
    (EnvVarsMapping.from x).query_cache_blocks = x.query_cache_blocks ∧
    (EnvVarsMapping.from x).query_cache_stale_period = x.query_cache_stale_period ∧
    (EnvVarsMapping.from x).max_ipfs_cache_file_size = x.max_ipfs_cache_file_size ∧
    (EnvVarsMapping.from x).max_ipfs_cache_size = x.max_ipfs_cache_size ∧
    (EnvVarsMapping.from x).max_ipfs_map_file_size = x.max_ipfs_map_file_size ∧
    (EnvVarsMapping.from x).max_ipfs_file_bytes = x.max_ipfs_file_bytes ∧
    (EnvVarsMapping.from x).max_stack_size = x.runtime_max_stack_size ∧
    (EnvVarsMapping.from x).allow_non_deterministic_ipfs = x.allow_non_deterministic_ipfs :=
  ⟨rfl, rfl, rfl, rfl, rfl, rfl, rfl, rfl, rfl⟩

/-- C9: loading is deterministic in the snapshot: two snapshots that
agree on every variable load to the same result.  (The embedding is a
pure function of the snapshot, matching the loader's absence of side
effects.) -/
theorem load_deterministic (e1 e2 : Env) (h : ∀ n, e1 n = e2 n) :
    InnerMappingHandlers.init_from_env e1 = InnerMappingHandlers.init_from_env e2 := by
  have he : e1 = e2 := funext h
  rw [he]

/-- C9 (witness): two syntactically different but extensionally equal
empty snapshots load identically. -/
theorem load_deterministic_witness :
    InnerMappingHandlers.init_from_env emptyEnv =
      InnerMappingHandlers.init_from_env (fun _ => none) :=
  load_deterministic emptyEnv (fun _ => none) (fun _ => rfl)

/-- C10: every field of the raw configuration struct has a declared
default or is optional, so loading never fails with `MissingVariable`
(every outcome is a success or an `InvalidFormat` failure), and loading
from the completely empty snapshot succeeds with every default applied. -/
theorem load_never_missing :
    (∀ env : Env,
      (∃ r, InnerMappingHandlers.init_from_env env = Except.ok r) ∨
      (∃ name raw, InnerMappingHandlers.init_from_env env =
        Except.error (ParseError.invalidFormat name raw))) ∧
    InnerMappingHandlers.init_from_env emptyEnv = Except.ok defaultRaw :=
  ⟨fun env => init_shape env, by decide⟩

theorem loaded_default {α : Type} {env : Env} {name d : String}
    {p : String → String → Except ParseError α} {v w : α}
    (ha : env name = none) (hl : loadField env name (some d) p = Except.ok v)
    (hd : p name d = Except.ok w) : v = w := by
  rw [loadField_absent ha] at hl
  exact ok_inj (hl.symm.trans hd)

/-- C2: whenever a variable with a declared default is absent from the
snapshot, a successful load gives that field its literal default; in
particular an unset query-cache-blocks variable derives to 2 and an unset
max-API-version variable loads as version 0.0.7. -/
theorem defaults_applied_when_absent (env : Env) (r : InnerMappingHandlers)
    (h : InnerMappingHandlers.init_from_env env = Except.ok r) :
    (env "GRAPH_ENTITY_CACHE_SIZE" = none → r.entity_cache_size_in_kb = 10000) ∧
    (env "GRAPH_MAX_API_VERSION" = none → r.max_api_version = ⟨0, 0, 7⟩) ∧
    (env "GRAPH_RUNTIME_MAX_STACK_SIZE" = none → r.runtime_max_stack_size = 512 * 1024) ∧
    (env "GRAPH_QUERY_CACHE_BLOCKS" = none →
      r.query_cache_blocks = 2 ∧ (EnvVarsMapping.from r).query_cache_blocks = 2) ∧
    (env "GRAPH_QUERY_CACHE_MAX_MEM" = none → r.query_cache_max_mem_in_mb = 1000) ∧
    (env "GRAPH_QUERY_CACHE_STALE_PERIOD" = none → r.query_cache_stale_period = 100) ∧
    (env "GRAPH_MAX_IPFS_CACHE_FILE_SIZE" = none → r.max_ipfs_cache_file_size = 1024 * 1024) ∧
    (env "GRAPH_MAX_IPFS_CACHE_SIZE" = none → r.max_ipfs_cache_size = 50) ∧
    (env "GRAPH_IPFS_TIMEOUT" = none → r.ipfs_timeout_in_secs = 30) ∧
    (env "GRAPH_MAX_IPFS_MAP_FILE_SIZE" = none → r.max_ipfs_map_file_size = 256 * 1024 * 1024) ∧
    (env "GRAPH_ALLOW_NON_DETERMINISTIC_IPFS" = none → r.allow_non_deterministic_ipfs = false) := by
  obtain ⟨h1, h2, h3, h4, h5, h6, h7, h8, h9, h10, h11, h12, h13⟩ := init_ok_fields h
  refine ⟨fun ha => loaded_default ha h1 (by decide),
    fun ha => loaded_default ha h2 (by decide),
    fun ha => loaded_default ha h4 (by decide),
    fun ha => ?_,
    fun ha => loaded_default ha h6 (by decide),
    fun ha => loaded_default ha h7 (by decide),
    fun ha => loaded_default ha h8 (by decide),
    fun ha => loaded_default ha h9 (by decide),
    fun ha => loaded_default ha h10 (by decide),
    fun ha => loaded_default ha h11 (by decide),
    fun ha => loaded_default ha h13 (by decide)⟩
  have hb : r.query_cache_blocks = 2 := loaded_default ha h5 (by decide)
  exact ⟨hb, hb⟩

/-- C2 (witness): loading the empty snapshot succeeds and the defaulted
fields take their literal defaults. -/
theorem defaults_applied_when_absent_witness :
    defaultRaw.entity_cache_size_in_kb = 10000 ∧
    defaultRaw.max_api_version = ⟨0, 0, 7⟩ ∧
    defaultRaw.query_cache_blocks = 2 ∧ (EnvVarsMapping.from defaultRaw).query_cache_blocks = 2 :=
  ⟨(defaults_applied_when_absent emptyEnv defaultRaw (by decide)).1 rfl,
   (defaults_applied_when_absent emptyEnv defaultRaw (by decide)).2.1 rfl,
   (defaults_applied_when_absent emptyEnv defaultRaw (by decide)).2.2.2.1 rfl⟩

/-- C6: the derive transform is total on valid raw instances: it is a
function (it cannot fail), and every unit multiplication and wrapping
operation yields a well-defined machine value, so a valid raw instance
always derives to a valid derived instance. -/
theorem derive_total_wf (x : InnerMappingHandlers) (h : x.wf = true) :
    (EnvVarsMapping.from x).wf = true := by
  simp only [InnerMappingHandlers.wf, Bool.and_eq_true, decide_eq_true_eq, and_assoc] at h
  obtain ⟨h1, h2, h3, h4, h5, h6, h7, h8, h9, h10, h11⟩ := h
  simp only [EnvVarsMapping.wf, EnvVarsMapping.from, Bool.and_eq_true, decide_eq_true_eq,
    and_assoc]
  refine ⟨Nat.mod_lt _ (by decide), ?_, h3, h4, Nat.mod_lt _ (by decide), h6, h7, h8,
    h9, by simp [Duration.from_secs]; decide, h10, h11⟩
  cases hx : x.mapping_handler_timeout_in_secs with
  | none => simp [hx]
  | some v =>
    rw [hx] at h2
    simp only [Option.all, Duration.from_secs, Option.map_some'] at h2 ⊢
    simp [h2, U32_MOD]

/-- C6 (witness): the all-defaults raw instance is valid and derives to a
valid derived instance. -/
theorem derive_total_wf_witness :
    defaultRaw.wf = true ∧ (EnvVarsMapping.from defaultRaw).wf = true :=
  ⟨by decide, derive_total_wf defaultRaw (by decide)⟩

/-- C7: the optional fields yield the empty sentinel on absence rather
than an error; a present mapping-handler-timeout of `v` seconds derives
to `some` Duration of `v` seconds; and a present but malformed value of
an optional field fails with exactly the plain integer parser's error. -/
theorem optional_fields_sentinel :
    (∀ (env : Env) (r : InnerMappingHandlers),
      InnerMappingHandlers.init_from_env env = Except.ok r →
      (env "GRAPH_MAPPING_HANDLER_TIMEOUT" = none →
        r.mapping_handler_timeout_in_secs = none ∧ (EnvVarsMapping.from r).timeout = none) ∧
      (env "GRAPH_MAX_IPFS_FILE_BYTES" = none →
        r.max_ipfs_file_bytes = none ∧ (EnvVarsMapping.from r).max_ipfs_file_bytes = none) ∧
      (∀ s v, env "GRAPH_MAPPING_HANDLER_TIMEOUT" = some s →
        parseUsize "GRAPH_MAPPING_HANDLER_TIMEOUT" s = Except.ok v →
        r.mapping_handler_timeout_in_secs = some v ∧
        (EnvVarsMapping.from r).timeout = some (Duration.from_secs v))) ∧
    (∀ (env : Env) (name raw : String) (e : ParseError), env name = some raw →
      parseUsize name raw = Except.error e →
      loadOptField env name parseUsize = Except.error e) := by
  constructor
  · intro env r h
    obtain ⟨h1, h2, h3, h4, h5, h6, h7, h8, h9, h10, h11, h12, h13⟩ := init_ok_fields h
    refine ⟨fun ha => ?_, fun ha => ?_, fun s v hs hv => ?_⟩
    · rw [loadOptField_absent ha] at h3
      have hn := (ok_inj h3).symm
      exact ⟨hn, by simp [EnvVarsMapping.from, hn]⟩
    · rw [loadOptField_absent ha] at h12
      have hn := (ok_inj h12).symm
      exact ⟨hn, by simp [EnvVarsMapping.from, hn]⟩
    · rw [loadOptField_present hs, hv] at h3
      simp only [Except.map] at h3
      have hv2 := (ok_inj h3).symm
      exact ⟨hv2, by simp [EnvVarsMapping.from, hv2]⟩
  · intro env name raw e hs he
    rw [loadOptField_present hs, he]
    rfl

/-- C7 (witness): with the timeout variable absent the sentinel is
`none`; set to `"5"` it derives to a 5-second Duration; set to a
malformed value the optional load fails like the plain parser. -/
theorem optional_fields_sentinel_witness :
    (EnvVarsMapping.from rawTimeout5).timeout = some (Duration.from_secs 5) ∧
    rawTimeout5.max_ipfs_file_bytes = none ∧
    loadOptField envTimeoutBad "GRAPH_MAPPING_HANDLER_TIMEOUT" parseUsize =
      Except.error (ParseError.invalidFormat "GRAPH_MAPPING_HANDLER_TIMEOUT" "zz") :=
  ⟨((optional_fields_sentinel.1 envTimeout5 rawTimeout5 (by decide)).2.2 "5" 5
      (by decide) (by decide)).2,
   ((optional_fields_sentinel.1 envTimeout5 rawTimeout5 (by decide)).2.1 (by decide)).1,
   optional_fields_sentinel.2 envTimeoutBad "GRAPH_MAPPING_HANDLER_TIMEOUT" "zz"
     (ParseError.invalidFormat "GRAPH_MAPPING_HANDLER_TIMEOUT" "zz") (by decide) (by decide)⟩
